import Mathlib

/-!
Shallow embedding of the resource access-control and query layer of the
health-record tracker: the Alert and DiagnosticTest models
(backend/models/Alert.js, backend/models/DiagnosticTest.js), the route
handlers of backend/routes/alerts.js, backend/routes/diagnosticTests.js and
backend/routes/users.js, and the association layout of models/index.js.

Timestamps and calendar dates are modelled as natural numbers; each request
carries its current time explicitly (the value new Date() would produce).
JSON metadata objects are association lists of string keys to atomic JSON
values; the JavaScript object spread is modelled by objMerge, whose lookup
semantics matches the spread exactly.
-/

namespace HealthTracker

/-- Atomic JSON values stored in metadata objects, preferences and
attachments. Nested structure is opaque to every operation modelled here. -/
inductive JVal where
  | num (n : Int)
  | str (s : String)
  | bool (b : Bool)
  | null
deriving DecidableEq, Repr

/-- A JSON object: an association list from keys to values. -/
abbrev JObj := List (String × JVal)

/-- Key lookup in an association list, first binding wins. -/
def alookup {β : Type} (k : String) : List (String × β) → Option β
  | [] => none
  | (k2, v) :: rest => if k2 = k then some v else alookup k rest

/-- The JavaScript object spread \x7b...old, ...new\x7d: keys of old not
overridden by new, followed by all keys of new. -/
def objMerge (old new : JObj) : JObj :=
  old.filter (fun p => (alookup p.1 new).isNone) ++ new

/-- Alert.status ENUM of models/Alert.js. -/
inductive AlertStatus where
  | active | acknowledged | resolved | dismissed
deriving DecidableEq, Repr

/-- Alert.priority ENUM of models/Alert.js, in declaration order. -/
inductive AlertPriority where
  | low | medium | high | critical
deriving DecidableEq, Repr

/-- Alert.type values of models/Alert.js (isIn validation). -/
inductive AlertType where
  | general | health | system | diagnostic | reminder
deriving DecidableEq, Repr

/-- The Alert row of models/Alert.js. -/
structure Alert where
  id : Nat
  title : String
  message : Option String := none
  status : AlertStatus := .active
  priority : AlertPriority := .medium
  type : AlertType := .general
  userId : Nat
  metadata : JObj := []
  acknowledgedAt : Option Nat := none
  resolvedAt : Option Nat := none
  createdAt : Nat := 0
deriving DecidableEq, Repr

/-- Alert.prototype.acknowledge of models/Alert.js: sets status and assigns
acknowledgedAt to the current time unconditionally, then saves. -/
def Alert.acknowledge (now : Nat) (a : Alert) : Alert :=
  { a with status := .acknowledged, acknowledgedAt := some now }

/-- Alert.prototype.resolve of models/Alert.js: sets status and assigns
resolvedAt to the current time unconditionally, then saves. -/
def Alert.resolve (now : Nat) (a : Alert) : Alert :=
  { a with status := .resolved, resolvedAt := some now }

/-- Alert.prototype.dismiss of models/Alert.js. -/
def Alert.dismiss (a : Alert) : Alert :=
  { a with status := .dismissed }

/-- DiagnosticTest.testType values of models/DiagnosticTest.js. -/
inductive TestType where
  | blood | urine | imaging | cardiac | neurological | genetic | general
deriving DecidableEq, Repr

/-- DiagnosticTest.status ENUM of models/DiagnosticTest.js. -/
inductive TestStatus where
  | pending | completed | reviewed | cancelled
deriving DecidableEq, Repr

/-- The DiagnosticTest row of models/DiagnosticTest.js. -/
structure DiagnosticTest where
  id : Nat
  name : String
  result : String
  date : Nat
  testType : TestType := .general
  status : TestStatus := .completed
  normalRange : Option String := none
  units : Option String := none
  notes : Option String := none
  userId : Nat
  doctorName : Option String := none
  labName : Option String := none
  isAbnormal : Bool := false
  attachments : List JVal := []
deriving DecidableEq, Repr

/-- DiagnosticTest.prototype.markAsReviewed of models/DiagnosticTest.js. -/
def DiagnosticTest.markAsReviewed (t : DiagnosticTest) : DiagnosticTest :=
  { t with status := .reviewed }

/-- DiagnosticTest.prototype.cancel of models/DiagnosticTest.js. -/
def DiagnosticTest.cancel (t : DiagnosticTest) : DiagnosticTest :=
  { t with status := .cancelled }

/-- The User row as used by routes/users.js and middleware/auth.js. -/
structure User where
  id : Nat
  name : String
  email : String
  password : String
  isActive : Bool := true
  isAdmin : Bool := false
  preferences : JObj := []
  lastLogin : Option Nat := none
  createdAt : Nat := 0
deriving DecidableEq, Repr

/-- The PUT /api/alerts/:id request body after express-validator has
accepted it (routes/alerts.js lines 213 to 236): every field optional. -/
structure AlertUpdateBody where
  title : Option String := none
  message : Option String := none
  status : Option AlertStatus := none
  priority : Option AlertPriority := none
  type : Option AlertType := none
  metadata : Option JObj := none
deriving Repr

/-- The body of the PUT /api/alerts/:id handler after the owner-scoped
lookup succeeded (routes/alerts.js lines 261 to 279): updateData is built
from the fields present in the body; a status of acknowledged or resolved
additionally sets the matching timestamp, but only when the alert does not
already carry one; metadata is shallow-merged into the existing object. -/
def updateAlert (now : Nat) (a : Alert) (b : AlertUpdateBody) : Alert :=
  let a1 := match b.title with
    | some t => { a with title := t }
    | none => a
  let a2 := match b.message with
    | some m => { a1 with message := some m }
    | none => a1
  let a3 := match b.status with
    | some s =>
      let x := { a2 with status := s }
      let x := if s = .acknowledged ∧ a.acknowledgedAt = none then
          { x with acknowledgedAt := some now } else x
      if s = .resolved ∧ a.resolvedAt = none then
          { x with resolvedAt := some now } else x
    | none => a2
  let a4 := match b.priority with
    | some p => { a3 with priority := p }
    | none => a3
  let a5 := match b.type with
    | some ty => { a4 with type := ty }
    | none => a4
  match b.metadata with
  | some m => { a5 with metadata := objMerge a.metadata m }
  | none => a5

/-- The POST /api/alerts request body as the client may send it. The handler
destructures only title, message, priority, type and metadata; a userId field
supplied by the client is representable here but never read. -/
structure AlertCreateBody where
  title : String
  message : Option String := none
  priority : Option AlertPriority := none
  type : Option AlertType := none
  metadata : Option JObj := none
  userId : Option Nat := none
deriving Repr

/-- Alert.create of the POST /api/alerts handler (routes/alerts.js lines 178
to 187): defaults priority to medium, type to general and metadata to the
empty object, and takes userId from the authenticated request user. -/
def createAlert (authUserId newId now : Nat) (b : AlertCreateBody) : Alert :=
  { id := newId
    title := b.title
    message := b.message
    status := .active
    priority := b.priority.getD .medium
    type := b.type.getD .general
    metadata := b.metadata.getD []
    userId := authUserId
    acknowledgedAt := none
    resolvedAt := none
    createdAt := now }

/-- The POST /api/diagnostic-tests request body: the handler destructures
the listed fields only; a userId field supplied by the client is
representable here but never read. -/
structure TestCreateBody where
  name : String
  result : String
  date : Nat
  testType : Option TestType := none
  status : Option TestStatus := none
  normalRange : Option String := none
  units : Option String := none
  notes : Option String := none
  doctorName : Option String := none
  labName : Option String := none
  isAbnormal : Option Bool := none
  attachments : Option (List JVal) := none
  userId : Option Nat := none
deriving Repr

/-- DiagnosticTest.create of the POST /api/diagnostic-tests handler
(routes/diagnosticTests.js lines 689 to 718 of the combined route file):
defaults testType to general, status to completed, isAbnormal to false and
attachments to the empty array; userId comes from the request user. -/
def createTest (authUserId newId : Nat) (b : TestCreateBody) : DiagnosticTest :=
  { id := newId
    name := b.name
    result := b.result
    date := b.date
    testType := b.testType.getD .general
    status := b.status.getD .completed
    normalRange := b.normalRange
    units := b.units
    notes := b.notes
    userId := authUserId
    doctorName := b.doctorName
    labName := b.labName
    isAbnormal := b.isAbnormal.getD false
    attachments := b.attachments.getD [] }

/-- The owner-scoped single-row lookup used by every /:id alert handler:
Alert.findOne with where id and userId. -/
def findAlert (uid id : Nat) (db : List Alert) : Option Alert :=
  db.find? (fun a => decide (a.id = id) && decide (a.userId = uid))

/-- The owner-scoped single-row lookup used by every /:id diagnostic-test
handler: DiagnosticTest.findOne with where id and userId. -/
def findTest (uid id : Nat) (db : List DiagnosticTest) : Option DiagnosticTest :=
  db.find? (fun t => decide (t.id = id) && decide (t.userId = uid))

/-- An error response: HTTP status code and message body. -/
structure ApiError where
  status : Nat
  message : String
deriving DecidableEq, Repr

/-- The 404 body every alert /:id handler returns when findOne comes back
empty, whether the row is absent or owned by someone else. -/
def alertNotFound : ApiError := ⟨404, "Alert not found"⟩

/-- The 404 body every diagnostic-test /:id handler returns when findOne
comes back empty. -/
def testNotFound : ApiError := ⟨404, "Diagnostic test not found"⟩

/-- GET /api/alerts/:id (routes/alerts.js lines 112 to 139). -/
def getAlertEndpoint (uid id : Nat) (db : List Alert) : Except ApiError Alert :=
  match findAlert uid id db with
  | some a => .ok a
  | none => .error alertNotFound

/-- GET /api/diagnostic-tests/:id. -/
def getTestEndpoint (uid id : Nat) (db : List DiagnosticTest) :
    Except ApiError DiagnosticTest :=
  match findTest uid id db with
  | some t => .ok t
  | none => .error testNotFound

/-- Persisting alert.save or alert.update: the row with the same primary key
is replaced in the table. -/
def saveAlert (a2 : Alert) (db : List Alert) : List Alert :=
  db.map (fun x => if x.id = a2.id then a2 else x)

/-- DELETE /api/alerts/:id (routes/alerts.js lines 369 to 395): owner-scoped
lookup, then alert.destroy removes the row by primary key. -/
def deleteAlertEndpoint (uid id : Nat) (db : List Alert) :
    List Alert × Except ApiError String :=
  match findAlert uid id db with
  | some a => (db.filter (fun x => decide (x.id ≠ a.id)),
               .ok "Alert deleted successfully")
  | none => (db, .error alertNotFound)

/-- DELETE /api/diagnostic-tests/:id: owner-scoped lookup, then
test.destroy removes the row by primary key. -/
def deleteTestEndpoint (uid id : Nat) (db : List DiagnosticTest) :
    List DiagnosticTest × Except ApiError String :=
  match findTest uid id db with
  | some t => (db.filter (fun x => decide (x.id ≠ t.id)),
               .ok "Diagnostic test deleted successfully")
  | none => (db, .error testNotFound)

/-- PUT /api/alerts/:id/acknowledge (routes/alerts.js lines 305 to 332):
owner-scoped lookup, then alert.acknowledge(). -/
def ackAlertEndpoint (now uid id : Nat) (db : List Alert) :
    List Alert × Except ApiError Alert :=
  match findAlert uid id db with
  | some a =>
    let a2 := Alert.acknowledge now a
    (saveAlert a2 db, .ok a2)
  | none => (db, .error alertNotFound)

/-- PUT /api/alerts/:id/resolve (routes/alerts.js lines 337 to 364):
owner-scoped lookup, then alert.resolve(). -/
def resolveAlertEndpoint (now uid id : Nat) (db : List Alert) :
    List Alert × Except ApiError Alert :=
  match findAlert uid id db with
  | some a =>
    let a2 := Alert.resolve now a
    (saveAlert a2 db, .ok a2)
  | none => (db, .error alertNotFound)

/-- PUT /api/alerts/:id with a validated body: owner-scoped lookup, then the
updateData application of updateAlert, then save. -/
def updateAlertEndpoint (now uid id : Nat) (b : AlertUpdateBody)
    (db : List Alert) : List Alert × Except ApiError Alert :=
  match findAlert uid id db with
  | some a =>
    let a2 := updateAlert now a b
    (saveAlert a2 db, .ok a2)
  | none => (db, .error alertNotFound)

/-- Insertion step of the ORDER BY model: place x before the first element y
with le x y. -/
def insertBy {α : Type} (le : α → α → Bool) (x : α) : List α → List α
  | [] => [x]
  | y :: ys => if le x y then x :: y :: ys else y :: insertBy le x ys

/-- The ORDER BY clause of a findAll or findAndCountAll call: the matching
rows arranged by the comparator. -/
def sortBy {α : Type} (le : α → α → Bool) : List α → List α
  | [] => []
  | x :: xs => insertBy le x (sortBy le xs)

/-- Rank of an Alert priority, in the declaration order of ENUM
low, medium, high, critical. MySQL orders an ENUM column by this index. -/
def priorityRank : AlertPriority → Nat
  | .low => 0
  | .medium => 1
  | .high => 2
  | .critical => 3

/-- The order clause of GET /api/alerts (routes/alerts.js lines 56 to 59):
priority DESC, then created_at DESC. -/
def alertLE (a b : Alert) : Bool :=
  decide (priorityRank b.priority < priorityRank a.priority)
  || (decide (priorityRank a.priority = priorityRank b.priority)
      && decide (b.createdAt ≤ a.createdAt))

/-- The order clause of GET /api/diagnostic-tests: date DESC. -/
def testLE (a b : DiagnosticTest) : Bool :=
  decide (b.date ≤ a.date)

/-- The recognized query filters of GET /api/alerts. -/
structure AlertQuery where
  status : Option AlertStatus := none
  priority : Option AlertPriority := none
  type : Option AlertType := none
deriving Repr

/-- The whereClause built at routes/alerts.js lines 49 to 52: always the
requesting userId, each supplied filter added as a further equality. -/
def alertWhere (uid : Nat) (q : AlertQuery) (a : Alert) : Bool :=
  decide (a.userId = uid)
  && (match q.status with | some s => decide (a.status = s) | none => true)
  && (match q.priority with | some p => decide (a.priority = p) | none => true)
  && (match q.type with | some ty => decide (a.type = ty) | none => true)

/-- The recognized query filters of GET /api/diagnostic-tests. Dates are day
numbers; a parsed isAbnormal filter is a boolean. -/
structure TestQuery where
  testType : Option TestType := none
  status : Option TestStatus := none
  isAbnormal : Option Bool := none
  dateFrom : Option Nat := none
  dateTo : Option Nat := none
deriving Repr

/-- The whereClause of GET /api/diagnostic-tests (lines 500 to 514 of the
combined route file): userId always, equality filters when supplied, and an
inclusive gte and lte pair for the date range. -/
def testWhere (uid : Nat) (q : TestQuery) (t : DiagnosticTest) : Bool :=
  decide (t.userId = uid)
  && (match q.testType with | some ty => decide (t.testType = ty) | none => true)
  && (match q.status with | some s => decide (t.status = s) | none => true)
  && (match q.isAbnormal with | some b => decide (t.isAbnormal = b) | none => true)
  && (match q.dateFrom with | some d => decide (d ≤ t.date) | none => true)
  && (match q.dateTo with | some d => decide (t.date ≤ d) | none => true)

/-- The pagination block both list handlers return. -/
structure Pagination where
  currentPage : Nat
  totalPages : Nat
  totalItems : Nat
  itemsPerPage : Nat
  hasNextPage : Bool
  hasPrevPage : Bool
deriving DecidableEq, Repr

/-- The response of GET /api/alerts. -/
structure AlertsPage where
  alerts : List Alert
  pagination : Pagination
deriving Repr

/-- The response of GET /api/diagnostic-tests. -/
structure TestsPage where
  tests : List DiagnosticTest
  pagination : Pagination
deriving Repr

/-- GET /api/alerts (routes/alerts.js lines 44 to 81): offset is
(page - 1) * limit, findAndCountAll filters by the whereClause and orders by
the order clause, totalPages is the ceiling of count over limit, hasNextPage
is page < totalPages and hasPrevPage is page > 1. -/
def getAlerts (uid page limit : Nat) (q : AlertQuery) (db : List Alert) :
    AlertsPage :=
  let offset := (page - 1) * limit
  let matching := sortBy alertLE (db.filter (alertWhere uid q))
  let count := matching.length
  let totalPages := (count + limit - 1) / limit
  { alerts := (matching.drop offset).take limit
    pagination :=
    { currentPage := page
      totalPages := totalPages
      totalItems := count
      itemsPerPage := limit
      hasNextPage := decide (page < totalPages)
      hasPrevPage := decide (1 < page) } }

/-- GET /api/diagnostic-tests (lines 495 to 540 of the combined route file):
same pagination computation over the test whereClause, ordered by date DESC. -/
def getTests (uid page limit : Nat) (q : TestQuery) (db : List DiagnosticTest) :
    TestsPage :=
  let offset := (page - 1) * limit
  let matching := sortBy testLE (db.filter (testWhere uid q))
  let count := matching.length
  let totalPages := (count + limit - 1) / limit
  { tests := (matching.drop offset).take limit
    pagination :=
    { currentPage := page
      totalPages := totalPages
      totalItems := count
      itemsPerPage := limit
      hasNextPage := decide (page < totalPages)
      hasPrevPage := decide (1 < page) } }

/-- Model.count with a whereClause: the number of rows satisfying it. -/
def countWhere {α : Type} (p : α → Bool) (db : List α) : Nat :=
  (db.filter p).length

/-- The JSON key of an Alert status. -/
def AlertStatus.key : AlertStatus → String
  | .active => "active"
  | .acknowledged => "acknowledged"
  | .resolved => "resolved"
  | .dismissed => "dismissed"

/-- The JSON key of an Alert priority. -/
def AlertPriority.key : AlertPriority → String
  | .low => "low"
  | .medium => "medium"
  | .high => "high"
  | .critical => "critical"

/-- The JSON key of a test type. -/
def TestType.key : TestType → String
  | .blood => "blood"
  | .urine => "urine"
  | .imaging => "imaging"
  | .cardiac => "cardiac"
  | .neurological => "neurological"
  | .genetic => "genetic"
  | .general => "general"

/-- The JSON key of a test status. -/
def TestStatus.key : TestStatus → String
  | .pending => "pending"
  | .completed => "completed"
  | .reviewed => "reviewed"
  | .cancelled => "cancelled"

/-- One contribution to a grouped map built by a SQL GROUP BY followed by
the reduce into an object: a group appears exactly when it has at least one
matching row. -/
def sparseEntry (k : String) (c : Nat) : List (String × Nat) :=
  if 0 < c then [(k, c)] else []

/-- Rows of the requesting user with the given status. -/
def alertStatusCount (uid : Nat) (s : AlertStatus) (db : List Alert) : Nat :=
  countWhere (fun a => decide (a.userId = uid) && decide (a.status = s)) db

/-- Rows of the requesting user with the given priority. -/
def alertPriorityCount (uid : Nat) (p : AlertPriority) (db : List Alert) : Nat :=
  countWhere (fun a => decide (a.userId = uid) && decide (a.priority = p)) db

/-- The summary object of GET /api/alerts/stats/summary (routes/alerts.js
lines 400 to 441): total and four fixed per-status counts from Alert.count
calls, and byPriority from a GROUP BY priority reduced into an object. -/
structure AlertSummary where
  total : Nat
  byStatus : List (String × Nat)
  byPriority : List (String × Nat)
deriving DecidableEq, Repr

/-- GET /api/alerts/stats/summary: byStatus is written out as an object with
the four status keys whatever their counts; byPriority keeps only priorities
that have rows. -/
def alertsSummary (uid : Nat) (db : List Alert) : AlertSummary :=
  { total := countWhere (fun a => decide (a.userId = uid)) db
    byStatus :=
      [("active", alertStatusCount uid .active db),
       ("acknowledged", alertStatusCount uid .acknowledged db),
       ("resolved", alertStatusCount uid .resolved db),
       ("dismissed", alertStatusCount uid .dismissed db)]
    byPriority :=
      sparseEntry "low" (alertPriorityCount uid .low db)
      ++ sparseEntry "medium" (alertPriorityCount uid .medium db)
      ++ sparseEntry "high" (alertPriorityCount uid .high db)
      ++ sparseEntry "critical" (alertPriorityCount uid .critical db) }

/-- Rows of the requesting user with the given test status. -/
def testStatusCount (uid : Nat) (s : TestStatus) (db : List DiagnosticTest) : Nat :=
  countWhere (fun t => decide (t.userId = uid) && decide (t.status = s)) db

/-- Rows of the requesting user with the given test type. -/
def testTypeCount (uid : Nat) (ty : TestType) (db : List DiagnosticTest) : Nat :=
  countWhere (fun t => decide (t.userId = uid) && decide (t.testType = ty)) db

/-- The summary object of GET /api/diagnostic-tests/stats/summary (lines 943
to 998 of the combined route file). -/
structure TestSummary where
  total : Nat
  abnormal : Nat
  recent : Nat
  byStatus : List (String × Nat)
  byType : List (String × Nat)
deriving DecidableEq, Repr

/-- GET /api/diagnostic-tests/stats/summary: byStatus is written out with
exactly the keys pending, completed and reviewed whatever their counts, and
no cancelled key at all; byType keeps only types that have rows; recent
counts rows dated within the last thirty days. -/
def testsSummary (uid now : Nat) (db : List DiagnosticTest) : TestSummary :=
  { total := countWhere (fun t => decide (t.userId = uid)) db
    abnormal := countWhere (fun t => decide (t.userId = uid) && t.isAbnormal) db
    recent := countWhere
      (fun t => decide (t.userId = uid) && decide (now - 30 ≤ t.date)) db
    byStatus :=
      [("pending", testStatusCount uid .pending db),
       ("completed", testStatusCount uid .completed db),
       ("reviewed", testStatusCount uid .reviewed db)]
    byType :=
      sparseEntry "blood" (testTypeCount uid .blood db)
      ++ sparseEntry "urine" (testTypeCount uid .urine db)
      ++ sparseEntry "imaging" (testTypeCount uid .imaging db)
      ++ sparseEntry "cardiac" (testTypeCount uid .cardiac db)
      ++ sparseEntry "neurological" (testTypeCount uid .neurological db)
      ++ sparseEntry "genetic" (testTypeCount uid .genetic db)
      ++ sparseEntry "general" (testTypeCount uid .general db) }

/-- The whole persistent store: the three tables of models/index.js, with
User hasMany Alert and User hasMany DiagnosticTest. -/
structure Store where
  users : List User
  alerts : List Alert
  tests : List DiagnosticTest
deriving Repr

/-- DELETE /api/users/account (routes/users.js): req.user.update with
isActive false — an update of the one user row, nothing else. -/
def deleteAccount (uid : Nat) (s : Store) : Store :=
  { s with users :=
      s.users.map (fun u => if u.id = uid then { u with isActive := false } else u) }

/-- DELETE /api/alerts/:id lifted to the whole store: only the alerts table
can change. -/
def deleteAlertStore (uid id : Nat) (s : Store) : Store :=
  { s with alerts := (deleteAlertEndpoint uid id s.alerts).1 }

/-- DELETE /api/diagnostic-tests/:id lifted to the whole store: only the
tests table can change. -/
def deleteTestStore (uid id : Nat) (s : Store) : Store :=
  { s with tests := (deleteTestEndpoint uid id s.tests).1 }

/-! Lemmas about the sorting model. -/

theorem mem_insertBy {α : Type} (le : α → α → Bool) (x y : α) (l : List α) :
    y ∈ insertBy le x l ↔ y = x ∨ y ∈ l := by
  induction l with
  | nil => simp [insertBy]
  | cons z zs ih =>
    simp only [insertBy]
    split
    · simp [List.mem_cons]
    · simp only [List.mem_cons, ih]
      tauto

theorem mem_sortBy {α : Type} (le : α → α → Bool) (x : α) (l : List α) :
    x ∈ sortBy le l ↔ x ∈ l := by
  induction l with
  | nil => simp [sortBy]
  | cons z zs ih =>
    simp only [sortBy, mem_insertBy, List.mem_cons, ih]

theorem pairwise_insertBy {α : Type} (le : α → α → Bool)
    (htot : ∀ a b, le a b = true ∨ le b a = true)
    (htrans : ∀ a b c, le a b = true → le b c = true → le a c = true)
    (x : α) (l : List α) (h : l.Pairwise (fun a b => le a b = true)) :
    (insertBy le x l).Pairwise (fun a b => le a b = true) := by
  induction l with
  | nil => simp [insertBy]
  | cons z zs ih =>
    rcases List.pairwise_cons.mp h with ⟨hz, hzs⟩
    simp only [insertBy]
    split
    · rename_i hxz
      refine List.pairwise_cons.mpr ⟨?_, h⟩
      intro y hy
      rcases List.mem_cons.mp hy with rfl | hy
      · exact hxz
      · exact htrans x z y hxz (hz y hy)
    · rename_i hnxz
      have hzx : le z x = true := (htot x z).resolve_left hnxz
      refine List.pairwise_cons.mpr ⟨?_, ih hzs⟩
      intro y hy
      rcases (mem_insertBy le x y zs).mp hy with rfl | hy
      · exact hzx
      · exact hz y hy

theorem pairwise_sortBy {α : Type} (le : α → α → Bool)
    (htot : ∀ a b, le a b = true ∨ le b a = true)
    (htrans : ∀ a b c, le a b = true → le b c = true → le a c = true)
    (l : List α) :
    (sortBy le l).Pairwise (fun a b => le a b = true) := by
  induction l with
  | nil => simp [sortBy]
  | cons z zs ih => exact pairwise_insertBy le htot htrans z (sortBy le zs) ih

theorem alertLE_total (a b : Alert) : alertLE a b = true ∨ alertLE b a = true := by
  simp only [alertLE, Bool.or_eq_true, Bool.and_eq_true, decide_eq_true_eq]
  omega

theorem alertLE_trans (a b c : Alert) (h1 : alertLE a b = true)
    (h2 : alertLE b c = true) : alertLE a c = true := by
  simp only [alertLE, Bool.or_eq_true, Bool.and_eq_true, decide_eq_true_eq] at h1 h2 ⊢
  omega

theorem testLE_total (a b : DiagnosticTest) : testLE a b = true ∨ testLE b a = true := by
  simp only [testLE, decide_eq_true_eq]
  omega

theorem testLE_trans (a b c : DiagnosticTest) (h1 : testLE a b = true)
    (h2 : testLE b c = true) : testLE a c = true := by
  simp only [testLE, decide_eq_true_eq] at h1 h2 ⊢
  omega

/-! Lemmas about association-list lookup and the object merge. -/

theorem alookup_append {β : Type} (k : String) (l1 l2 : List (String × β)) :
    alookup k (l1 ++ l2)
      = match alookup k l1 with
        | some v => some v
        | none => alookup k l2 := by
  induction l1 with
  | nil => simp [alookup]
  | cons p rest ih =>
    simp only [List.cons_append, alookup]
    split <;> simp [ih]

theorem alookup_filter_eq_none {β : Type} (k : String) (q : String × β → Bool)
    (l : List (String × β)) (hq : ∀ v, q (k, v) = false) :
    alookup k (l.filter q) = none := by
  induction l with
  | nil => simp [alookup]
  | cons p rest ih =>
    by_cases hk : p.1 = k
    · have : q p = false := by
        rcases p with ⟨k1, v⟩
        cases hk
        exact hq v
      simp [List.filter_cons, this, ih]
    · rcases hqp : q p with _ | _
      · simp [List.filter_cons, hqp, ih]
      · simp [List.filter_cons, hqp, alookup, hk, ih]

theorem alookup_filter_eq_self {β : Type} (k : String) (q : String × β → Bool)
    (l : List (String × β)) (hq : ∀ v, q (k, v) = true) :
    alookup k (l.filter q) = alookup k l := by
  induction l with
  | nil => simp
  | cons p rest ih =>
    by_cases hk : p.1 = k
    · have : q p = true := by
        rcases p with ⟨k1, v⟩
        cases hk
        exact hq v
      simp [List.filter_cons, this, alookup, hk, ih]
    · rcases hqp : q p with _ | _
      · simp [List.filter_cons, hqp, alookup, hk, ih]
      · simp [List.filter_cons, hqp, alookup, hk, ih]

theorem alookup_objMerge (k : String) (old new : JObj) :
    alookup k (objMerge old new)
      = match alookup k new with
        | some v => some v
        | none => alookup k old := by
  rcases hnew : alookup k new with _ | v
  · have hkeep : alookup k (old.filter (fun p => (alookup p.1 new).isNone))
        = alookup k old := by
      refine alookup_filter_eq_self k _ old ?_
      intro v
      simp [hnew]
    simp only [objMerge, alookup_append, hkeep]
    rcases alookup k old with _ | w <;> simp [hnew]
  · have hdrop : alookup k (old.filter (fun p => (alookup p.1 new).isNone))
        = none := by
      refine alookup_filter_eq_none k _ old ?_
      intro w
      simp [hnew]
    simp only [objMerge, alookup_append, hdrop, hnew]

theorem alookup_sparseEntry_self (k : String) (c : Nat) :
    alookup k (sparseEntry k c) = if 0 < c then some c else none := by
  unfold sparseEntry
  split <;> simp_all [alookup]

theorem alookup_sparseEntry_ne (k k2 : String) (c : Nat) (h : k2 ≠ k) :
    alookup k (sparseEntry k2 c) = none := by
  unfold sparseEntry
  split <;> simp_all [alookup]

/-! Lemmas about pagination arithmetic. -/

theorem le_ceilDiv_mul (N P : Nat) (hP : 0 < P) : N ≤ ((N + P - 1) / P) * P := by
  rcases Nat.eq_zero_or_pos N with h | h
  · subst h
    simp
  · have hNP : N + P - 1 = (N - 1) + P := by omega
    rw [hNP, Nat.add_div_right _ hP]
    have h1 := Nat.div_add_mod (N - 1) P
    have h2 := Nat.mod_lt (N - 1) hP
    have h3 : ((N - 1) / P + 1) * P = P * ((N - 1) / P) + P := by ring
    rw [h3]
    omega

theorem flatMap_map_succ {α : Type} (f : Nat → List α) (l : List Nat) :
    (l.map Nat.succ).flatMap f = l.flatMap (fun i => f (i + 1)) := by
  induction l with
  | nil => rfl
  | cons x xs ih => simp [List.flatMap_cons, ih]

theorem join_pages {α : Type} (P : Nat) :
    ∀ (k : Nat) (l : List α), l.length ≤ k * P →
      (List.range k).flatMap (fun i => (l.drop (i * P)).take P) = l := by
  intro k
  induction k with
  | zero =>
    intro l hl
    have : l = [] := List.length_eq_zero.mp (by omega)
    subst this
    rfl
  | succ k ih =>
    intro l hl
    rw [List.range_succ_eq_map, List.flatMap_cons, flatMap_map_succ]
    have hfun : (fun i => (l.drop ((i + 1) * P)).take P)
        = (fun i => ((l.drop P).drop (i * P)).take P) := by
      funext i
      rw [List.drop_drop]
      congr 2
      ring
    rw [hfun]
    have hlen : (l.drop P).length ≤ k * P := by
      have : (k + 1) * P = k * P + P := by ring
      simp only [List.length_drop]
      omega
    rw [ih (l.drop P) hlen]
    simp [List.take_append_drop]

/-! Lemmas relating the built whereClauses to their conjunctive reading. -/

theorem alertWhere_iff (uid : Nat) (q : AlertQuery) (a : Alert) :
    alertWhere uid q a = true ↔
      (a.userId = uid
      ∧ (∀ s, q.status = some s → a.status = s)
      ∧ (∀ p, q.priority = some p → a.priority = p)
      ∧ (∀ ty, q.type = some ty → a.type = ty)) := by
  rcases q with ⟨qs, qp, qt⟩
  cases qs <;> cases qp <;> cases qt <;>
    simp [alertWhere, and_assoc]

theorem testWhere_iff (uid : Nat) (q : TestQuery) (t : DiagnosticTest) :
    testWhere uid q t = true ↔
      (t.userId = uid
      ∧ (∀ ty, q.testType = some ty → t.testType = ty)
      ∧ (∀ s, q.status = some s → t.status = s)
      ∧ (∀ b, q.isAbnormal = some b → t.isAbnormal = b)
      ∧ (∀ d, q.dateFrom = some d → d ≤ t.date)
      ∧ (∀ d, q.dateTo = some d → t.date ≤ d)) := by
  rcases q with ⟨qty, qs, qb, qf, qto⟩
  cases qty <;> cases qs <;> cases qb <;> cases qf <;> cases qto <;>
    simp [testWhere, and_assoc]

theorem mem_getAlerts_where (uid page limit : Nat) (q : AlertQuery)
    (db : List Alert) (a : Alert) (ha : a ∈ (getAlerts uid page limit q db).alerts) :
    alertWhere uid q a = true := by
  simp only [getAlerts] at ha
  have h1 : a ∈ sortBy alertLE (db.filter (alertWhere uid q)) :=
    List.mem_of_mem_drop (List.mem_of_mem_take ha)
  exact List.of_mem_filter ((mem_sortBy _ _ _).mp h1)

theorem mem_getTests_where (uid page limit : Nat) (q : TestQuery)
    (db : List DiagnosticTest) (t : DiagnosticTest)
    (ht : t ∈ (getTests uid page limit q db).tests) :
    testWhere uid q t = true := by
  simp only [getTests] at ht
  have h1 : t ∈ sortBy testLE (db.filter (testWhere uid q)) :=
    List.mem_of_mem_drop (List.mem_of_mem_take ht)
  exact List.of_mem_filter ((mem_sortBy _ _ _).mp h1)

/-! Concrete fixtures used by counterexamples and witnesses. -/

/-- An alert of user 7 that has never been acknowledged. -/
def aliceAlert : Alert := { id := 1, title := "Test Alert", userId := 7 }

/-- An alert of user 7 already acknowledged at time 5. -/
def ackedAlert : Alert :=
  { id := 2, title := "Test Alert", userId := 7, status := .acknowledged,
    acknowledgedAt := some 5, resolvedAt := some 5 }

/-! Claim theorems. -/

/-- C1 (counterexample): acknowledging alert 1 of user 7 through the
dedicated endpoint at time 10 sets acknowledgedAt to 10; acknowledging it
again at time 20 moves acknowledgedAt to 20, so the second call does not
leave the timestamp at its value after the first call. -/
theorem c1_reack_moves_timestamp :
    (findAlert 7 1 (ackAlertEndpoint 10 7 1 [aliceAlert]).1).map Alert.acknowledgedAt
      = some (some 10)
    ∧ (findAlert 7 1
        (ackAlertEndpoint 20 7 1 (ackAlertEndpoint 10 7 1 [aliceAlert]).1).1).map
          Alert.acknowledgedAt = some (some 20)
    ∧ (findAlert 7 1
        (ackAlertEndpoint 20 7 1 (ackAlertEndpoint 10 7 1 [aliceAlert]).1).1).map
          Alert.acknowledgedAt
      ≠ (findAlert 7 1 (ackAlertEndpoint 10 7 1 [aliceAlert]).1).map
          Alert.acknowledgedAt := by
  decide

/-- C1 (amended): the dedicated acknowledge operation stamps acknowledgedAt
with the current time unconditionally, so a second acknowledge moves the
timestamp to the time of the second call; resolve and resolvedAt behave the
same way. The first-transition-only rule holds on neither timestamp for the
dedicated endpoints. -/
theorem c1_acknowledge_always_overwrites (a : Alert) (t1 t2 : Nat) :
    (Alert.acknowledge t2 (Alert.acknowledge t1 a)).acknowledgedAt = some t2
    ∧ (Alert.acknowledge t1 a).acknowledgedAt = some t1
    ∧ (Alert.acknowledge t1 a).status = .acknowledged
    ∧ (Alert.resolve t2 (Alert.resolve t1 a)).resolvedAt = some t2
    ∧ (Alert.resolve t1 a).resolvedAt = some t1
    ∧ (Alert.resolve t1 a).status = .resolved := by
  simp [Alert.acknowledge, Alert.resolve]

/-- C2 (counterexample): on an alert whose acknowledgedAt is already 5, the
generic update with status acknowledged at time 9 keeps the timestamp at 5
while the dedicated endpoint path moves it to 9, so the two code paths are
not observably equivalent for the timestamp rule. -/
theorem c2_paths_differ_when_timestamp_set :
    (updateAlert 9 ackedAlert { status := some .acknowledged }).acknowledgedAt = some 5
    ∧ (Alert.acknowledge 9 ackedAlert).acknowledgedAt = some 9
    ∧ (updateAlert 9 ackedAlert { status := some .acknowledged }).acknowledgedAt
      ≠ (Alert.acknowledge 9 ackedAlert).acknowledgedAt := by
  decide

/-- C2 (amended): the generic update applies the set-only-if-unset timestamp
rule, the dedicated path does not; the two paths agree exactly when the
corresponding timestamp is not yet set, and diverge when it is, the generic
update preserving the old timestamp and the dedicated operation overwriting
it with the current time. -/
theorem c2_paths_agree_iff_timestamp_unset (a : Alert) (now : Nat) :
    (a.acknowledgedAt = none →
        updateAlert now a { status := some .acknowledged } = Alert.acknowledge now a)
    ∧ (∀ t, a.acknowledgedAt = some t →
        (updateAlert now a { status := some .acknowledged }).acknowledgedAt = some t
        ∧ (updateAlert now a { status := some .acknowledged }).status = .acknowledged
        ∧ (Alert.acknowledge now a).acknowledgedAt = some now)
    ∧ (a.resolvedAt = none →
        updateAlert now a { status := some .resolved } = Alert.resolve now a)
    ∧ (∀ t, a.resolvedAt = some t →
        (updateAlert now a { status := some .resolved }).resolvedAt = some t
        ∧ (updateAlert now a { status := some .resolved }).status = .resolved
        ∧ (Alert.resolve now a).resolvedAt = some now) := by
  refine ⟨?_, ?_, ?_, ?_⟩
  · intro h
    simp [updateAlert, Alert.acknowledge, h]
  · intro t ht
    refine ⟨?_, ?_, ?_⟩ <;> simp [updateAlert, Alert.acknowledge, ht]
  · intro h
    simp [updateAlert, Alert.resolve, h]
  · intro t ht
    refine ⟨?_, ?_, ?_⟩ <;> simp [updateAlert, Alert.resolve, ht]

/-- C4: both create handlers take the stored owner reference from the
authenticated identity; a userId field supplied in the request body is never
read, so the created row is identical whatever that field holds. -/
theorem c4_created_owner_is_caller (authUserId newId now : Nat)
    (b : AlertCreateBody) (tb : TestCreateBody) (v : Option Nat) :
    (createAlert authUserId newId now b).userId = authUserId
    ∧ createAlert authUserId newId now { b with userId := v }
        = createAlert authUserId newId now b
    ∧ (createTest authUserId newId tb).userId = authUserId
    ∧ createTest authUserId newId { tb with userId := v }
        = createTest authUserId newId tb := by
  refine ⟨rfl, rfl, rfl, rfl⟩

/-- C5: when every row carrying the requested id belongs to someone other
than the caller — which covers both a row owned by another user and no row
at all — read-one and delete return exactly the 404 body that a nonexistent
id returns, for alerts and for diagnostic tests; the wrong-owner case is
indistinguishable from the nonexistent case. -/
theorem c5_ownership_miss_indistinguishable (uid id : Nat) (db : List Alert)
    (tdb : List DiagnosticTest)
    (h : ∀ a ∈ db, a.id = id → a.userId ≠ uid)
    (ht : ∀ t ∈ tdb, t.id = id → t.userId ≠ uid) :
    getAlertEndpoint uid id db = .error alertNotFound
    ∧ deleteAlertEndpoint uid id db = (db, .error alertNotFound)
    ∧ getAlertEndpoint uid id ([] : List Alert) = .error alertNotFound
    ∧ deleteAlertEndpoint uid id ([] : List Alert) = ([], .error alertNotFound)
    ∧ getTestEndpoint uid id tdb = .error testNotFound
    ∧ deleteTestEndpoint uid id tdb = (tdb, .error testNotFound)
    ∧ getTestEndpoint uid id ([] : List DiagnosticTest) = .error testNotFound
    ∧ deleteTestEndpoint uid id ([] : List DiagnosticTest)
        = ([], .error testNotFound) := by
  have hf : findAlert uid id db = none := by
    rw [findAlert, List.find?_eq_none]
    intro a ha
    simp only [Bool.and_eq_true, decide_eq_true_eq, not_and]
    intro hid
    exact h a ha hid
  have htf : findTest uid id tdb = none := by
    rw [findTest, List.find?_eq_none]
    intro t htt
    simp only [Bool.and_eq_true, decide_eq_true_eq, not_and]
    intro hid
    exact ht t htt hid
  refine ⟨?_, ?_, rfl, rfl, ?_, ?_, rfl, rfl⟩
  · simp [getAlertEndpoint, hf]
  · simp [deleteAlertEndpoint, hf]
  · simp [getTestEndpoint, htf]
  · simp [deleteTestEndpoint, htf]

/-- An alert that exists but belongs to user 2, fetched by user 7 in the C5
witness. -/
def bobAlert : Alert := { id := 1, title := "Bob", userId := 2 }

/-- A diagnostic test that exists but belongs to user 2. -/
def bobTest : DiagnosticTest :=
  { id := 1, name := "Panel", result := "ok", date := 0, userId := 2 }

/-- C5 witness: user 7 requesting id 1 over tables holding only rows of
user 2 receives the same 404 bodies as over empty tables. -/
theorem c5_ownership_miss_witness :
    getAlertEndpoint 7 1 [bobAlert] = .error alertNotFound
    ∧ deleteAlertEndpoint 7 1 [bobAlert] = ([bobAlert], .error alertNotFound)
    ∧ getAlertEndpoint 7 1 ([] : List Alert) = .error alertNotFound
    ∧ deleteAlertEndpoint 7 1 ([] : List Alert) = ([], .error alertNotFound)
    ∧ getTestEndpoint 7 1 [bobTest] = .error testNotFound
    ∧ deleteTestEndpoint 7 1 [bobTest] = ([bobTest], .error testNotFound)
    ∧ getTestEndpoint 7 1 ([] : List DiagnosticTest) = .error testNotFound
    ∧ deleteTestEndpoint 7 1 ([] : List DiagnosticTest)
        = ([], .error testNotFound) :=
  c5_ownership_miss_indistinguishable 7 1 [bobAlert] [bobTest]
    (by decide) (by decide)

/-- C7: whenever the update body carries a metadata object, the updated
alert stores the shallow merge of the old metadata with the supplied object:
a key looks up to its new value when supplied and to its preserved old value
otherwise. -/
theorem c7_metadata_shallow_merge (a : Alert) (now : Nat) (b : AlertUpdateBody)
    (m : JObj) (h : b.metadata = some m) :
    (updateAlert now a b).metadata = objMerge a.metadata m
    ∧ ∀ k, alookup k (updateAlert now a b).metadata
        = match alookup k m with
          | some v => some v
          | none => alookup k a.metadata := by
  have hm : (updateAlert now a b).metadata = objMerge a.metadata m := by
    simp [updateAlert, h]
  refine ⟨hm, fun k => ?_⟩
  rw [hm, alookup_objMerge]

/-- An alert of user 7 whose metadata already holds a maps-to 1, as left by
a previous update. -/
def mdAlert : Alert :=
  { id := 3, title := "Test Alert", userId := 7, metadata := [("a", JVal.num 1)] }

/-- C7 witness: updating metadata holding a maps-to 1 with the object b
maps-to 2 merges rather than replaces, so a still looks up to 1 and b to 2. -/
theorem c7_metadata_merge_witness :
    (updateAlert 0 mdAlert { metadata := some [("b", JVal.num 2)] }).metadata
        = objMerge mdAlert.metadata [("b", JVal.num 2)]
    ∧ ∀ k, alookup k
        (updateAlert 0 mdAlert { metadata := some [("b", JVal.num 2)] }).metadata
        = match alookup k [("b", JVal.num 2)] with
          | some v => some v
          | none => alookup k mdAlert.metadata :=
  c7_metadata_shallow_merge mdAlert 0 { metadata := some [("b", JVal.num 2)] }
    [("b", JVal.num 2)] rfl

/-- C10: account deletion only flips the isActive flag of the caller inside
the users table: the alerts and tests tables are untouched, no user row is
removed, every other user row is unchanged, and the callers row keeps all
its fields except isActive; the alert and test delete endpoints, the only
API operations that remove rows, never touch the users table, so the
cascade configured on the User associations is never reached through the
API. -/
theorem c10_account_deletion_is_deactivation (uid : Nat) (s : Store) :
    (deleteAccount uid s).alerts = s.alerts
    ∧ (deleteAccount uid s).tests = s.tests
    ∧ (deleteAccount uid s).users.length = s.users.length
    ∧ (∀ u ∈ s.users, u.id ≠ uid → u ∈ (deleteAccount uid s).users)
    ∧ (∀ u ∈ s.users, u.id = uid →
        { u with isActive := false } ∈ (deleteAccount uid s).users)
    ∧ (∀ uid2 id2, (deleteAlertStore uid2 id2 s).users = s.users
        ∧ (deleteAlertStore uid2 id2 s).tests = s.tests)
    ∧ (∀ uid2 id2, (deleteTestStore uid2 id2 s).users = s.users
        ∧ (deleteTestStore uid2 id2 s).alerts = s.alerts) := by
  refine ⟨rfl, rfl, by simp [deleteAccount], ?_, ?_, ?_, ?_⟩
  · intro u hu hne
    simp only [deleteAccount]
    exact List.mem_map.mpr ⟨u, hu, by simp [hne]⟩
  · intro u hu heq
    simp only [deleteAccount]
    exact List.mem_map.mpr ⟨u, hu, by simp [heq]⟩
  · intro uid2 id2
    exact ⟨rfl, rfl⟩
  · intro uid2 id2
    exact ⟨rfl, rfl⟩

/-- C3: every row either list endpoint returns belongs to the caller and
satisfies every supplied filter; and the whereClause both endpoints filter by
is exactly the conjunction of the owner restriction with each supplied
filter, an unsupplied filter imposing nothing. -/
theorem c3_lists_owner_scoped_and_conjunctive (uid page limit tpage tlimit : Nat)
    (q : AlertQuery) (db : List Alert) (tq : TestQuery) (tdb : List DiagnosticTest) :
    (∀ a ∈ (getAlerts uid page limit q db).alerts,
        a.userId = uid
        ∧ (∀ s, q.status = some s → a.status = s)
        ∧ (∀ p, q.priority = some p → a.priority = p)
        ∧ (∀ ty, q.type = some ty → a.type = ty))
    ∧ (∀ a : Alert, alertWhere uid q a = true ↔
        (a.userId = uid
        ∧ (∀ s, q.status = some s → a.status = s)
        ∧ (∀ p, q.priority = some p → a.priority = p)
        ∧ (∀ ty, q.type = some ty → a.type = ty)))
    ∧ (∀ t ∈ (getTests uid tpage tlimit tq tdb).tests,
        t.userId = uid
        ∧ (∀ ty, tq.testType = some ty → t.testType = ty)
        ∧ (∀ s, tq.status = some s → t.status = s)
        ∧ (∀ b, tq.isAbnormal = some b → t.isAbnormal = b)
        ∧ (∀ d, tq.dateFrom = some d → d ≤ t.date)
        ∧ (∀ d, tq.dateTo = some d → t.date ≤ d))
    ∧ (∀ t : DiagnosticTest, testWhere uid tq t = true ↔
        (t.userId = uid
        ∧ (∀ ty, tq.testType = some ty → t.testType = ty)
        ∧ (∀ s, tq.status = some s → t.status = s)
        ∧ (∀ b, tq.isAbnormal = some b → t.isAbnormal = b)
        ∧ (∀ d, tq.dateFrom = some d → d ≤ t.date)
        ∧ (∀ d, tq.dateTo = some d → t.date ≤ d))) := by
  refine ⟨?_, alertWhere_iff uid q, ?_, testWhere_iff uid tq⟩
  · intro a ha
    exact (alertWhere_iff uid q a).mp (mem_getAlerts_where uid page limit q db a ha)
  · intro t ht
    exact (testWhere_iff uid tq t).mp (mem_getTests_where uid tpage tlimit tq tdb t ht)

/-- C9: the rows of any alerts page are pairwise ordered by priority rank
descending with ties broken by creation time descending, the rows of any
diagnostic-tests page are pairwise ordered by date descending, and the
priority rank places critical above high above medium above low. -/
theorem c9_list_ordering (uid page limit tpage tlimit : Nat) (q : AlertQuery)
    (db : List Alert) (tq : TestQuery) (tdb : List DiagnosticTest) :
    ((getAlerts uid page limit q db).alerts).Pairwise (fun a b =>
        priorityRank b.priority < priorityRank a.priority
        ∨ (priorityRank a.priority = priorityRank b.priority
           ∧ b.createdAt ≤ a.createdAt))
    ∧ ((getTests uid tpage tlimit tq tdb).tests).Pairwise
        (fun a b => b.date ≤ a.date)
    ∧ priorityRank .low < priorityRank .medium
    ∧ priorityRank .medium < priorityRank .high
    ∧ priorityRank .high < priorityRank .critical := by
  refine ⟨?_, ?_, by decide, by decide, by decide⟩
  · have h1 : (sortBy alertLE (db.filter (alertWhere uid q))).Pairwise
        (fun a b => alertLE a b = true) :=
      pairwise_sortBy alertLE alertLE_total alertLE_trans _
    have h2 : ((getAlerts uid page limit q db).alerts).Pairwise
        (fun a b => alertLE a b = true) := by
      simp only [getAlerts]
      exact h1.sublist ((List.take_sublist _ _).trans (List.drop_sublist _ _))
    refine h2.imp ?_
    intro a b hab
    simpa only [alertLE, Bool.or_eq_true, Bool.and_eq_true, decide_eq_true_eq]
      using hab
  · have h1 : (sortBy testLE (tdb.filter (testWhere uid tq))).Pairwise
        (fun a b => testLE a b = true) :=
      pairwise_sortBy testLE testLE_total testLE_trans _
    have h2 : ((getTests uid tpage tlimit tq tdb).tests).Pairwise
        (fun a b => testLE a b = true) := by
      simp only [getTests]
      exact h1.sublist ((List.take_sublist _ _).trans (List.drop_sublist _ _))
    refine h2.imp ?_
    intro a b hab
    simpa only [testLE, decide_eq_true_eq] using hab

theorem getAlerts_page_rows (uid limit : Nat) (q : AlertQuery) (db : List Alert)
    (i : Nat) :
    (getAlerts uid (i + 1) limit q db).alerts
      = ((sortBy alertLE (db.filter (alertWhere uid q))).drop (i * limit)).take
          limit := by
  simp [getAlerts]

theorem getTests_page_rows (uid limit : Nat) (q : TestQuery)
    (db : List DiagnosticTest) (i : Nat) :
    (getTests uid (i + 1) limit q db).tests
      = ((sortBy testLE (db.filter (testWhere uid q))).drop (i * limit)).take
          limit := by
  simp [getTests]

/-- C8: with a positive page size, each list endpoint reports the matching
row count as totalItems, the ceiling of count over page size as totalPages,
hasNextPage exactly when the page is before the last, hasPrevPage exactly
when the page is after the first; and the pages 1 through totalPages
concatenated in order are exactly the full ordered matching result, each
row once. -/
theorem c8_pagination_contract (uid page limit tpage tlimit : Nat)
    (q : AlertQuery) (db : List Alert) (tq : TestQuery) (tdb : List DiagnosticTest)
    (hl : 0 < limit) (htl : 0 < tlimit) :
    ((getAlerts uid page limit q db).pagination.totalItems
        = (sortBy alertLE (db.filter (alertWhere uid q))).length
    ∧ (getAlerts uid page limit q db).pagination.totalPages
        = ((sortBy alertLE (db.filter (alertWhere uid q))).length + limit - 1) / limit
    ∧ ((getAlerts uid page limit q db).pagination.hasNextPage = true ↔
        page < (getAlerts uid page limit q db).pagination.totalPages)
    ∧ ((getAlerts uid page limit q db).pagination.hasPrevPage = true ↔ 1 < page)
    ∧ (List.range (getAlerts uid page limit q db).pagination.totalPages).flatMap
        (fun i => (getAlerts uid (i + 1) limit q db).alerts)
      = sortBy alertLE (db.filter (alertWhere uid q)))
    ∧ ((getTests uid tpage tlimit tq tdb).pagination.totalItems
        = (sortBy testLE (tdb.filter (testWhere uid tq))).length
    ∧ (getTests uid tpage tlimit tq tdb).pagination.totalPages
        = ((sortBy testLE (tdb.filter (testWhere uid tq))).length + tlimit - 1) / tlimit
    ∧ ((getTests uid tpage tlimit tq tdb).pagination.hasNextPage = true ↔
        tpage < (getTests uid tpage tlimit tq tdb).pagination.totalPages)
    ∧ ((getTests uid tpage tlimit tq tdb).pagination.hasPrevPage = true ↔ 1 < tpage)
    ∧ (List.range (getTests uid tpage tlimit tq tdb).pagination.totalPages).flatMap
        (fun i => (getTests uid (i + 1) tlimit tq tdb).tests)
      = sortBy testLE (tdb.filter (testWhere uid tq))) := by
  constructor
  · refine ⟨rfl, rfl, by simp [getAlerts], by simp [getAlerts], ?_⟩
    have hrows : (fun i => (getAlerts uid (i + 1) limit q db).alerts)
        = (fun i => ((sortBy alertLE (db.filter (alertWhere uid q))).drop
            (i * limit)).take limit) :=
      funext (getAlerts_page_rows uid limit q db)
    rw [hrows]
    show (List.range
        (((sortBy alertLE (db.filter (alertWhere uid q))).length + limit - 1)
          / limit)).flatMap _ = _
    exact join_pages limit _ _
      (le_ceilDiv_mul (sortBy alertLE (db.filter (alertWhere uid q))).length
        limit hl)
  · refine ⟨rfl, rfl, by simp [getTests], by simp [getTests], ?_⟩
    have hrows : (fun i => (getTests uid (i + 1) tlimit tq tdb).tests)
        = (fun i => ((sortBy testLE (tdb.filter (testWhere uid tq))).drop
            (i * tlimit)).take tlimit) :=
      funext (getTests_page_rows uid tlimit tq tdb)
    rw [hrows]
    show (List.range
        (((sortBy testLE (tdb.filter (testWhere uid tq))).length + tlimit - 1)
          / tlimit)).flatMap _ = _
    exact join_pages tlimit _ _
      (le_ceilDiv_mul (sortBy testLE (tdb.filter (testWhere uid tq))).length
        tlimit htl)

/-- Alerts of users 7 and 8 for the pagination witness. -/
def wAlerts : List Alert :=
  [{ id := 1, title := "a", userId := 7 },
   { id := 2, title := "b", userId := 7, createdAt := 1 },
   { id := 3, title := "c", userId := 7, priority := .high },
   { id := 4, title := "d", userId := 8 }]

/-- Diagnostic tests of users 7 and 8 for the pagination witness. -/
def wTests : List DiagnosticTest :=
  [{ id := 1, name := "n1", result := "r", date := 3, userId := 7 },
   { id := 2, name := "n2", result := "r", date := 1, userId := 7 },
   { id := 3, name := "n3", result := "r", date := 2, userId := 8 }]

/-- C8 witness: user 7 listing with page 1 and page size 2 over concrete
tables of three matching alerts and two matching tests. -/
theorem c8_pagination_witness :
    ((getAlerts 7 1 2 {} wAlerts).pagination.totalItems
        = (sortBy alertLE (wAlerts.filter (alertWhere 7 {}))).length
    ∧ (getAlerts 7 1 2 {} wAlerts).pagination.totalPages
        = ((sortBy alertLE (wAlerts.filter (alertWhere 7 {}))).length + 2 - 1) / 2
    ∧ ((getAlerts 7 1 2 {} wAlerts).pagination.hasNextPage = true ↔
        1 < (getAlerts 7 1 2 {} wAlerts).pagination.totalPages)
    ∧ ((getAlerts 7 1 2 {} wAlerts).pagination.hasPrevPage = true ↔ 1 < 1)
    ∧ (List.range (getAlerts 7 1 2 {} wAlerts).pagination.totalPages).flatMap
        (fun i => (getAlerts 7 (i + 1) 2 {} wAlerts).alerts)
      = sortBy alertLE (wAlerts.filter (alertWhere 7 {})))
    ∧ ((getTests 7 1 2 {} wTests).pagination.totalItems
        = (sortBy testLE (wTests.filter (testWhere 7 {}))).length
    ∧ (getTests 7 1 2 {} wTests).pagination.totalPages
        = ((sortBy testLE (wTests.filter (testWhere 7 {}))).length + 2 - 1) / 2
    ∧ ((getTests 7 1 2 {} wTests).pagination.hasNextPage = true ↔
        1 < (getTests 7 1 2 {} wTests).pagination.totalPages)
    ∧ ((getTests 7 1 2 {} wTests).pagination.hasPrevPage = true ↔ 1 < 1)
    ∧ (List.range (getTests 7 1 2 {} wTests).pagination.totalPages).flatMap
        (fun i => (getTests 7 (i + 1) 2 {} wTests).tests)
      = sortBy testLE (wTests.filter (testWhere 7 {}))) :=
  c8_pagination_contract 7 1 2 1 2 {} wAlerts {} wTests (by decide) (by decide)

/-- A cancelled diagnostic test of user 7, used to show the cancelled group
never reaches the tests byStatus map. -/
def cancelledTest : DiagnosticTest :=
  { id := 9, name := "n", result := "r", date := 0, status := .cancelled,
    userId := 7 }

/-- C6 (counterexample): for a user with no alerts the alerts summary still
reports the key active with count 0 inside byStatus, so a status group with
zero matching rows is not omitted; and for a user whose only test is
cancelled, the tests byStatus map omits the cancelled key even though that
group has one matching row. The count-by-status maps are not sparse maps. -/
theorem c6_byStatus_not_sparse :
    alookup "active" (alertsSummary 7 ([] : List Alert)).byStatus = some 0
    ∧ alertStatusCount 7 .active ([] : List Alert) = 0
    ∧ alookup "cancelled" (testsSummary 7 0 [cancelledTest]).byStatus = none
    ∧ testStatusCount 7 .cancelled [cancelledTest] = 1 := by
  decide

/-- C6 (amended): only the grouped maps built by GROUP BY are sparse — in
byPriority and byType a key is present, with its count, exactly when at
least one row matches; the count-by-status maps instead carry a fixed key
set whatever the data: all four statuses for alerts, and only pending,
completed and reviewed for tests, zero-filled and with cancelled never
reported. -/
theorem c6_grouped_maps (uid now : Nat) (db : List Alert)
    (tdb : List DiagnosticTest) :
    (∀ p : AlertPriority, alookup p.key (alertsSummary uid db).byPriority
        = if 0 < alertPriorityCount uid p db
          then some (alertPriorityCount uid p db) else none)
    ∧ (∀ ty : TestType, alookup ty.key (testsSummary uid now tdb).byType
        = if 0 < testTypeCount uid ty tdb
          then some (testTypeCount uid ty tdb) else none)
    ∧ (alertsSummary uid db).byStatus.map Prod.fst
        = ["active", "acknowledged", "resolved", "dismissed"]
    ∧ (testsSummary uid now tdb).byStatus.map Prod.fst
        = ["pending", "completed", "reviewed"] := by
  refine ⟨?_, ?_, rfl, rfl⟩
  · intro p
    cases p <;>
      simp [alertsSummary, AlertPriority.key, alookup_append,
        alookup_sparseEntry_self, alookup_sparseEntry_ne] <;>
      (split <;> rename_i h <;> exact h.symm)
  · intro ty
    cases ty <;>
      simp [testsSummary, TestType.key, alookup_append,
        alookup_sparseEntry_self, alookup_sparseEntry_ne] <;>
      (split <;> rename_i h <;> exact h.symm)

end HealthTracker
